import Mathlib

/-!
Shallow embedding of the TLS stream pump of `src/tls_wrap.cc` together with the
`SSLWrap` / `SecureContext` callback logic of `src/node_crypto.cc`.

The embedding keeps the member variables of `TLSWrap` / `SSLWrap` as fields of
an explicit state record and turns every relevant method into a pure state
transformer.  Interactions with external collaborators (the OpenSSL engine and
the underlying transport stream) are passed in as explicit outcome values, and
externally visible side effects (EmitRead, WriteWrap::Done, writes to the
underlying stream, MakeCallback) are collected in an event trace.
-/

namespace NodeTLS

/-- libuv status code for end of file (`UV_EOF`). -/
def UV_EOF : Int := -4095

/-- libuv status code for a cancelled request (`UV_ECANCELED`). -/
def UV_ECANCELED : Int := -125

/-- libuv status code for a protocol error (`UV_EPROTO`). -/
def UV_EPROTO : Int := -71

/-- OpenSSL ALPN/SNI callback result: success. -/
def SSL_TLSEXT_ERR_OK : Int := 0

/-- OpenSSL ALPN/SNI callback result: fatal alert, aborts the handshake. -/
def SSL_TLSEXT_ERR_ALERT_FATAL : Int := 2

/-- OpenSSL ALPN/SNI callback result: no protocol chosen, handshake continues. -/
def SSL_TLSEXT_ERR_NOACK : Int := 3

/-- `SecureContext::kMaxSessionSize` (node_crypto.h line 137). -/
def kMaxSessionSize : Nat := 10 * 1024

/-- Modelled from the spec: `TLSWrap::kSimultaneousBufferCount` is declared in
`tls_wrap.h`, which is not among the provided sources.  The spec says `enc_out`
gathers "up to a small fixed number of contiguous ciphertext regions"; the
concrete bound is irrelevant to every claim below. -/
def kSimultaneousBufferCount : Nat := 10

/-- Classification of `SSL_get_error` results as seen by `TLSWrap::GetSSLError`
(tls_wrap.cc lines 398-476). -/
inductive SSLError
  | ok
  | wantRead
  | wantWrite
  | wantX509Lookup
  | zeroReturn
  | fatalSSL
  | syscall
  deriving DecidableEq, Repr

/-- Whether `GetSSLError` returns a non-empty error value for this class
(tls_wrap.cc lines 406-470): the want-classes yield an empty value, while
`SSL_ERROR_ZERO_RETURN`, `SSL_ERROR_SSL` and `SSL_ERROR_SYSCALL` yield one. -/
def sslErrorHasArg : SSLError → Bool
  | SSLError.zeroReturn => true
  | SSLError.fatalSSL => true
  | SSLError.syscall => true
  | _ => false

/-- Externally visible side effects of the pump. -/
inductive Event
  | emitData (data : List Nat)
  | emitErr (n : Int)
  | writeDone (w : Nat) (status : Int) (msg : String)
  | transportWrite (bufs : List (List Nat))
  | onError
  | helloParse
  | newSessionEmitted
  | setImmediateDone
  | setImmediateAfterWrite
  deriving DecidableEq, Repr

/-- True for the EmitRead(UV_EOF) event delivered to the consumer. -/
def isEOFEvent : Event → Bool
  | Event.emitErr n => n == UV_EOF
  | _ => false

/-- True for a write request issued to the underlying transport stream. -/
def isTransportWriteEvent : Event → Bool
  | Event.transportWrite _ => true
  | _ => false

/-- State of one `TLSWrap` connection: the member variables of `TLSWrap`
(tls_wrap.h) and of its `SSLWrap` base (node_crypto.h lines 330-344). -/
structure TLSState where
  /-- `kind_ == kServer` (node_crypto.h line 250). -/
  isServer : Bool
  /-- `ssl_ != nullptr`. -/
  sslAlive : Bool
  /-- `hello_parser_.IsEnded()`: ended is also the initial state when the
  ClientHello sniffer was never started. -/
  helloEnded : Bool
  /-- `established_`, set in `SSLInfoCallback` on handshake completion. -/
  established : Bool
  /-- `eof_` (tls_wrap.cc lines 488, 533, 807). -/
  eof : Bool
  /-- `shutdown_`, set in `DoShutdown`. -/
  shutdownFlag : Bool
  /-- `write_size_`: byte count of the in-flight transport write, 0 if none. -/
  writeSize : Nat
  /-- `in_dowrite_`. -/
  inDoWrite : Bool
  /-- `write_callback_scheduled_`. -/
  writeCallbackScheduled : Bool
  /-- `current_write_` (the pending WriteWrap, identified by a number). -/
  currentWrite : Option Nat
  /-- `current_empty_write_`. -/
  currentEmptyWrite : Option Nat
  /-- `pending_cleartext_input_` (payload bytes retained for retry). -/
  pendingCleartextInput : List Nat
  /-- Bytes committed into the `enc_in_` NodeBIO, the rbio handed to the
  engine by `SSL_set_bio` in `InitSSL` (tls_wrap.cc line 113); FIFO with the
  oldest byte at the front. -/
  encIn : List Nat
  /-- Chunks of the `enc_out_` NodeBIO (the wbio of the engine). -/
  encOutChunks : List (List Nat)
  /-- `awaiting_new_session_` (node_crypto.h line 337). -/
  awaitingNewSession : Bool
  /-- `session_callbacks_` (node_crypto.h line 336). -/
  sessionCallbacks : Bool
  /-- `cert_cb_ != nullptr`, i.e. `is_waiting_cert_cb()` (node_crypto.h 253). -/
  certCbSet : Bool
  /-- `cert_cb_running_` (node_crypto.h line 342). -/
  certCbRunning : Bool
  /-- Registered as a listener on the underlying stream. -/
  listening : Bool
  /-- `error_`. -/
  error : String
  deriving DecidableEq, Repr

/-- Result of `underlying_stream()->Write` (`StreamWriteResult`). -/
structure TransportResult where
  err : Int
  async : Bool
  deriving DecidableEq, Repr

/-- Outcome of one `SSL_write` call.  The code asserts
`written == -1 || written == length` (tls_wrap.cc lines 586, 760), so a write
either consumes the whole payload, appending the produced ciphertext to
`enc_out_`, or consumes nothing and reports an error class. -/
inductive SSLWriteOutcome
  | ok (cipher : List Nat)
  | fail (e : SSLError)
  deriving DecidableEq, Repr

/-- Engine behaviour during one `ClearOut` call: the plaintext records that the
successive `SSL_read` calls return, how much ciphertext the engine drains from
`enc_in_`, ciphertext (handshake/alert bytes) produced into `enc_out_`, the
error class of the final non-positive read, and the
`SSL_get_shutdown & SSL_RECEIVED_SHUTDOWN` flag. -/
structure ClearOutBehavior where
  chunks : List (List Nat)
  consumed : Nat
  cipherOut : List Nat
  finalErr : SSLError
  receivedShutdown : Bool
  deriving DecidableEq, Repr

/-- Total readable bytes in a NodeBIO (`BIO_pending`). -/
def bioPending (chunks : List (List Nat)) : Nat := chunks.flatten.length

/-- Appending freshly produced bytes to a NodeBIO; writing zero bytes adds
nothing. -/
def bioAppend (chunks : List (List Nat)) (bytes : List Nat) : List (List Nat) :=
  if bytes = [] then chunks else chunks ++ [bytes]

/-- `NodeBIO::Read(nullptr, n)`: consume `n` bytes from the front of the BIO
(tls_wrap.cc line 387). -/
def bioConsume : List (List Nat) → Nat → List (List Nat)
  | [], _ => []
  | c :: cs, n =>
    if n = 0 then c :: cs
    else if n < c.length then c.drop n :: cs
    else bioConsume cs (n - c.length)

/-- `TLSWrap::InvokeQueued` (tls_wrap.cc lines 87-99): does nothing unless
`write_callback_scheduled_`; otherwise completes `current_write_` (if any) with
the given status. -/
def invokeQueued (s : TLSState) (status : Int) (msg : String) :
    TLSState × List Event :=
  if s.writeCallbackScheduled = false then (s, [])
  else
    match s.currentWrite with
    | some wr => ({ s with currentWrite := none }, [Event.writeDone wr status msg])
    | none => (s, [])

/-- `TLSWrap::EncOut` (tls_wrap.cc lines 270-356). -/
def encOut (s : TLSState) (t : TransportResult) : TLSState × List Event :=
  if s.helloEnded = false then (s, [])
  else if s.writeSize ≠ 0 then (s, [])
  else if s.awaitingNewSession = true then (s, [])
  else
    let s1 := if s.established = true ∧ s.currentWrite.isSome = true then
        { s with writeCallbackScheduled := true } else s
    if s1.sslAlive = false then (s1, [])
    else if bioPending s1.encOutChunks = 0 then
      if s1.pendingCleartextInput.length = 0 then
        if s1.inDoWrite = false then invokeQueued s1 0 ""
        else (s1, [Event.setImmediateDone])
      else (s1, [])
    else
      let peeked := s1.encOutChunks.take kSimultaneousBufferCount
      let s2 := { s1 with writeSize := bioPending peeked }
      if t.err ≠ 0 then
        let r := invokeQueued s2 t.err ""
        (r.1, Event.transportWrite peeked :: r.2)
      else if t.async = false then
        (s2, [Event.transportWrite peeked, Event.setImmediateAfterWrite])
      else (s2, [Event.transportWrite peeked])

/-- `TLSWrap::ClearIn` (tls_wrap.cc lines 563-613). -/
def clearIn (s : TLSState) (w : SSLWriteOutcome) : TLSState × List Event :=
  if s.helloEnded = false then (s, [])
  else if s.sslAlive = false then (s, [])
  else if s.pendingCleartextInput.length = 0 then (s, [])
  else
    let data := s.pendingCleartextInput
    let s1 := { s with pendingCleartextInput := [] }
    match w with
    | SSLWriteOutcome.ok cipher =>
        ({ s1 with encOutChunks := bioAppend s1.encOutChunks cipher }, [])
    | SSLWriteOutcome.fail e =>
        if sslErrorHasArg e = true then
          invokeQueued { s1 with writeCallbackScheduled := true } UV_EPROTO "SSL error"
        else
          ({ s1 with pendingCleartextInput := data }, [])

/-- `TLSWrap::ClearOut` (tls_wrap.cc lines 479-560).  The possibility that the
consumer destroys the connection from inside its own read callback is not
modelled; the engine behaviour for the whole call is summarised by `b`. -/
def clearOut (s : TLSState) (b : ClearOutBehavior) (t : TransportResult) :
    TLSState × List Event :=
  if s.helloEnded = false then (s, [])
  else if s.eof = true then (s, [])
  else if s.sslAlive = false then (s, [])
  else
    let evs := b.chunks.map Event.emitData
    let s1 := { s with
      encIn := s.encIn.drop b.consumed,
      encOutChunks := bioAppend s.encOutChunks b.cipherOut }
    let r2 :=
      if s1.eof = false ∧ b.receivedShutdown = true then
        ({ s1 with eof := true }, [Event.emitErr UV_EOF])
      else (s1, ([] : List Event))
    if b.finalErr = SSLError.zeroReturn ∧ r2.1.eof = true then (r2.1, evs ++ r2.2)
    else if sslErrorHasArg b.finalErr = true then
      let r3 :=
        if bioPending r2.1.encOutChunks ≠ 0 then encOut r2.1 t
        else (r2.1, ([] : List Event))
      (r3.1, evs ++ r2.2 ++ r3.2 ++ [Event.onError])
    else (r2.1, evs ++ r2.2)

/-- Modelled from the spec: `TLSWrap::Cycle` lives in `tls_wrap.h`, which is
not among the provided sources.  The spec (section 4.1) describes the cycle as
performing, in order: drain the pending cleartext write into the engine
(`clear_in`), ask the engine for plaintext (`clear_out`), then push ciphertext
to the transport (`enc_out`). -/
def cycle (s : TLSState) (w : SSLWriteOutcome) (cob : ClearOutBehavior)
    (t1 t2 : TransportResult) : TLSState × List Event :=
  let r1 := clearIn s w
  let r2 := clearOut r1.1 cob t1
  let r3 := encOut r2.1 t2
  (r3.1, r1.2 ++ r2.2 ++ r3.2)

/-- `TLSWrap::OnStreamRead` (tls_wrap.cc lines 799-840).  For `nread ≥ 0` the
bytes are committed into `enc_in_` unconditionally; only afterwards does the
ClientHello gate decide whether to feed the parser (which merely peeks) or to
cycle the engine. -/
def onStreamRead (s : TLSState) (nread : Int) (data : List Nat)
    (w : SSLWriteOutcome) (cob : ClearOutBehavior) (t1 t2 : TransportResult) :
    TLSState × List Event :=
  if nread < 0 then
    let r := clearOut s cob t1
    if nread = UV_EOF then
      if r.1.eof = true then r
      else ({ r.1 with eof := true }, r.2 ++ [Event.emitErr nread])
    else (r.1, r.2 ++ [Event.emitErr nread])
  else
    let s1 := { s with encIn := s.encIn ++ data }
    if s1.helloEnded = false then (s1, [Event.helloParse])
    else cycle s1 w cob t1 t2

/-- `TLSWrap::OnStreamAfterWrite` (tls_wrap.cc lines 359-395). -/
def onStreamAfterWrite (s : TLSState) (status : Int) (w : SSLWriteOutcome)
    (t : TransportResult) : TLSState × List Event :=
  match s.currentEmptyWrite with
  | some ew => ({ s with currentEmptyWrite := none }, [Event.writeDone ew status ""])
  | none =>
    let st := if s.sslAlive = false then UV_ECANCELED else status
    if st ≠ 0 then
      if s.shutdownFlag = true then (s, [])
      else invokeQueued s st ""
    else
      let s1 := { s with encOutChunks := bioConsume s.encOutChunks s.writeSize }
      let r := clearIn s1 w
      let s2 := { r.1 with writeSize := 0 }
      let r2 := encOut s2 t
      (r2.1, r.2 ++ r2.2)

/-- `TLSWrap::DoWrite` (tls_wrap.cc lines 683-787).  Returns the synchronous
status code together with the new state and the event trace. -/
def doWrite (s : TLSState) (wid : Nat) (bufs : List (List Nat))
    (w : SSLWriteOutcome) (cob : ClearOutBehavior) (t1 t2 : TransportResult) :
    Int × TLSState × List Event :=
  if s.sslAlive = false then
    (UV_EPROTO, { s with error := "Write after DestroySSL" }, [])
  else
    if (bufs.flatten).length = 0 then
      let r := clearOut s cob t1
      if bioPending r.1.encOutChunks = 0 then
        let s2 := { r.1 with currentEmptyWrite := some wid }
        if t2.async = false then
          (0, s2, r.2 ++ [Event.transportWrite bufs, Event.setImmediateAfterWrite])
        else
          (0, s2, r.2 ++ [Event.transportWrite bufs])
      else
        let s2 := { r.1 with currentWrite := some wid }
        let r2 := encOut s2 t1
        (0, r2.1, r.2 ++ r2.2)
    else
      let s1 := { s with currentWrite := some wid }
      match w with
      | SSLWriteOutcome.ok cipher =>
          let s2 := { s1 with encOutChunks := bioAppend s1.encOutChunks cipher,
                              inDoWrite := true }
          let r := encOut s2 t1
          (0, { r.1 with inDoWrite := false }, r.2)
      | SSLWriteOutcome.fail e =>
          if sslErrorHasArg e = true then
            (UV_EPROTO, { s1 with currentWrite := none, error := "SSL error" }, [])
          else
            let s2 := { s1 with pendingCleartextInput := bufs.flatten,
                                inDoWrite := true }
            let r := encOut s2 t1
            (0, { r.1 with inDoWrite := false }, r.2)

/-- `TLSWrap::DestroySSL` (tls_wrap.cc lines 956-975) followed by
`SSLWrap::DestroySSL` (node_crypto.cc lines 3238-3245): mark the queued write
callback, cancel the in-flight write with `UV_ECANCELED`, release the SSL
handle (guarded, hence idempotent), null the BIOs, and unregister as a stream
listener.  Note that the certificate-callback fields are not touched. -/
def destroySSL (s : TLSState) : TLSState × List Event :=
  let r := invokeQueued { s with writeCallbackScheduled := true } UV_ECANCELED
    "Canceled because of SSL destruction"
  let s2 := if r.1.sslAlive = true then { r.1 with sslAlive := false } else r.1
  ({ s2 with encIn := [], encOutChunks := [], listening := false }, r.2)

/-- `SSLWrap::SSLCertCallback` (node_crypto.cc lines 3122-3167).  `appSync`
says whether the invoked `oncertcb` application callback completed
synchronously via `CertCbDone` (which clears `cert_cb_running_` and
`cert_cb_`).  Returns the new state, the callback result handed to OpenSSL
(1 = proceed, -1 = suspend with want-X509-lookup), and whether the application
callback was invoked. -/
def sslCertCallback (s : TLSState) (appSync : Bool) : TLSState × Int × Bool :=
  if s.isServer = false then (s, 1, false)
  else if s.certCbSet = false then (s, 1, false)
  else if s.certCbRunning = true then (s, -1, false)
  else
    let s1 := { s with certCbRunning := true }
    let s2 := if appSync = true then
        { s1 with certCbRunning := false, certCbSet := false } else s1
    if s2.certCbRunning = false then (s2, 1, true) else (s2, -1, true)

/-- OpenSSL `SSL_select_next_proto`, as called by `SelectALPNCallback`
(node_crypto.cc lines 2999-3001): scans the FIRST vector (here the buffer the
server stored via `SetALPNProtocols`) in order and returns its first entry
that also occurs in the second vector (the list the client advertised);
returns `none` when there is no overlap.  Protocols are modelled as byte
lists rather than the length-prefixed wire encoding. -/
def selectNextProto (server client : List (List Nat)) : Option (List Nat) :=
  server.find? (fun p => client.contains p)

/-- `SSLWrap::SelectALPNCallback` (node_crypto.cc lines 2982-3008): negotiated
protocols yield `SSL_TLSEXT_ERR_OK`; any other status yields
`SSL_TLSEXT_ERR_NOACK`, which is not a fatal alert. -/
def selectALPNCallback (server client : List (List Nat)) :
    Int × Option (List Nat) :=
  match selectNextProto server client with
  | some p => (SSL_TLSEXT_ERR_OK, some p)
  | none => (SSL_TLSEXT_ERR_NOACK, none)

/-- The selection function as worded by the spec (section 4.4) and claim C3:
the first common protocol name in the CLIENT preference order intersected
against the server list.  Stated only to compare with the code. -/
def specALPNClientOrder (server client : List (List Nat)) : Option (List Nat) :=
  client.find? (fun p => server.contains p)

/-- The three 16-byte ticket key parts of a `SecureContext`
(node_crypto.h lines 146-148). -/
structure TicketKey where
  name : List Nat
  aes : List Nat
  hmac : List Nat
  deriving DecidableEq, Repr

/-- Outcome of the RAND/EVP/HMAC initialisation calls inside the ticket
callback. -/
inductive TicketCrypto
  | ok
  | fail
  deriving DecidableEq, Repr

/-- `SecureContext::TicketCompatibilityCallback` (node_crypto.cc lines
1931-1965).  Returns 1 on success, -1 on a cryptographic failure, and 0 when
the presented key name does not match the active key name, which tells OpenSSL
to discard the ticket and fall back to a full handshake. -/
def ticketCompatibilityCallback (sc : TicketKey) (enc : Bool)
    (presentedName : List Nat) (c : TicketCrypto) : Int :=
  if enc = true then
    match c with
    | TicketCrypto.fail => -1
    | TicketCrypto.ok => 1
  else
    if presentedName ≠ sc.name then 0
    else
      match c with
      | TicketCrypto.fail => -1
      | TicketCrypto.ok => 1

/-- `SSLWrap::NewSessionCallback` (node_crypto.cc lines 2064-2101): without
session callbacks or with an oversized session nothing happens; otherwise the
`onnewsession` callback is emitted, and on servers only,
`awaiting_new_session_` is set first. -/
def newSessionCallback (s : TLSState) (sessSize : Nat) : TLSState × List Event :=
  if s.sessionCallbacks = false then (s, [])
  else if kMaxSessionSize < sessSize then (s, [])
  else
    let s1 := if s.isServer = true then { s with awaitingNewSession := true } else s
    (s1, [Event.newSessionEmitted])

/-- `SSLWrap::NewSessionDone` (node_crypto.cc lines 2760-2765): clears
`awaiting_new_session_` and calls `NewSessionDoneCb`, which is
`TLSWrap::NewSessionDoneCb` (tls_wrap.cc lines 102-105), i.e. `Cycle()`. -/
def newSessionDone (s : TLSState) (w : SSLWriteOutcome) (cob : ClearOutBehavior)
    (t1 t2 : TransportResult) : TLSState × List Event :=
  cycle { s with awaitingNewSession := false } w cob t1 t2

/-- Modelled from the spec: `ClientHelloParser::End` is implemented in
`node_crypto_clienthello.cc`, which is not among the provided sources.  The
spec says the sniffer state transitions Active to Ended exactly once; the end
callback registered in `EnableSessionCallbacks` is
`TLSWrap::OnClientHelloParseEnd` (tls_wrap.cc lines 985-989), which re-enters
`Cycle()`. -/
def endParser (s : TLSState) (w : SSLWriteOutcome) (cob : ClearOutBehavior)
    (t1 t2 : TransportResult) : TLSState × List Event :=
  cycle { s with helloEnded := true } w cob t1 t2

/-- A convenient concrete server-side state used by witnesses and
counterexamples. -/
def baseState : TLSState where
  isServer := true
  sslAlive := true
  helloEnded := true
  established := false
  eof := false
  shutdownFlag := false
  writeSize := 0
  inDoWrite := false
  writeCallbackScheduled := false
  currentWrite := none
  currentEmptyWrite := none
  pendingCleartextInput := []
  encIn := []
  encOutChunks := []
  awaitingNewSession := false
  sessionCallbacks := true
  certCbSet := false
  certCbRunning := false
  listening := true
  error := ""

/-- Default engine/transport oracles for concrete evaluations. -/
def idleWrite : SSLWriteOutcome := SSLWriteOutcome.fail SSLError.wantRead

/-- Default `ClearOut` behaviour: the engine returns no plaintext, consumes
nothing, produces nothing, and reports want-read. -/
def idleClearOut : ClearOutBehavior where
  chunks := []
  consumed := 0
  cipherOut := []
  finalErr := SSLError.wantRead
  receivedShutdown := false

/-- Default transport response: the write was accepted asynchronously. -/
def okTransport : TransportResult where
  err := 0
  async := true

/-- One delivery step: feed one transport read to `OnStreamRead` with idle
engine oracles and append the produced events. -/
def deliverStep (acc : TLSState × List Event) (c : List Nat) :
    TLSState × List Event :=
  ((onStreamRead acc.1 (c.length : Int) c idleWrite idleClearOut okTransport
      okTransport).1,
    acc.2 ++ (onStreamRead acc.1 (c.length : Int) c idleWrite idleClearOut
      okTransport okTransport).2)

/-- Deliver a list of transport reads to `OnStreamRead` in order, with idle
engine oracles (the oracles are irrelevant while the ClientHello gate is
active, since the engine is never driven). -/
def deliverAll (s : TLSState) (chunksIn : List (List Nat)) : TLSState × List Event :=
  chunksIn.foldl deliverStep (s, [])

/-! ## Generic helper lemmas about the embedded operations -/

theorem invokeQueued_fields (s : TLSState) (st : Int) (m : String) :
    ((invokeQueued s st m).1).pendingCleartextInput = s.pendingCleartextInput ∧
    ((invokeQueued s st m).1).encIn = s.encIn ∧
    ((invokeQueued s st m).1).eof = s.eof ∧
    ((invokeQueued s st m).1).helloEnded = s.helloEnded ∧
    ((invokeQueued s st m).1).sslAlive = s.sslAlive ∧
    ((invokeQueued s st m).1).writeSize = s.writeSize ∧
    ((invokeQueued s st m).1).certCbSet = s.certCbSet := by
  unfold invokeQueued
  split
  · exact ⟨rfl, rfl, rfl, rfl, rfl, rfl, rfl⟩
  · split <;> exact ⟨rfl, rfl, rfl, rfl, rfl, rfl, rfl⟩

theorem encOut_fields (s : TLSState) (t : TransportResult) :
    ((encOut s t).1).pendingCleartextInput = s.pendingCleartextInput ∧
    ((encOut s t).1).encIn = s.encIn ∧
    ((encOut s t).1).eof = s.eof ∧
    ((encOut s t).1).helloEnded = s.helloEnded ∧
    ((encOut s t).1).sslAlive = s.sslAlive := by
  unfold encOut invokeQueued
  repeat' (first | split | dsimp only) <;> try exact ⟨rfl, rfl, rfl, rfl, rfl⟩

/-- C5: a session-ticket decrypt request whose presented key name does not
match the active key name makes the ticket-key callback return 0 ("discard the
ticket, fall back to a full handshake"), never the fatal -1, regardless of the
state of the cryptographic primitives. -/
theorem C5_ticket_key_mismatch_nonfatal (sc : TicketKey)
    (presentedName : List Nat) (c : TicketCrypto)
    (h : presentedName ≠ sc.name) :
    ticketCompatibilityCallback sc false presentedName c = 0 ∧
    ticketCompatibilityCallback sc false presentedName c ≠ -1 := by
  unfold ticketCompatibilityCallback
  simp [h]

/-- C5 witness: concrete mismatching key name. -/
theorem C5_witness :
    ticketCompatibilityCallback ⟨[0], [1], [2]⟩ false [9] TicketCrypto.ok = 0 ∧
    ticketCompatibilityCallback ⟨[0], [1], [2]⟩ false [9] TicketCrypto.ok ≠ -1 :=
  C5_ticket_key_mismatch_nonfatal ⟨[0], [1], [2]⟩ [9] TicketCrypto.ok (by decide)

/-- C7: if the certificate-selection callback runs while a decision is already
in flight (`cert_cb_running_`), it returns the suspend signal -1 without
re-invoking the application callback and without touching the state; and the
application callback is only ever invoked when no decision is in flight. -/
theorem C7_cert_cb_no_reentry :
    (∀ s appSync, s.isServer = true → s.certCbSet = true →
      s.certCbRunning = true → sslCertCallback s appSync = (s, -1, false)) ∧
    (∀ s appSync, (sslCertCallback s appSync).2.2 = true →
      s.certCbRunning = false) := by
  constructor
  · intro s appSync h1 h2 h3
    unfold sslCertCallback
    simp [h1, h2, h3]
  · intro s appSync h
    cases hR : s.certCbRunning
    · rfl
    · exfalso
      unfold sslCertCallback at h
      by_cases h1 : s.isServer = false
      · simp [h1] at h
      · by_cases h2 : s.certCbSet = false
        · simp [h1, h2] at h
        · simp [h1, h2, hR] at h

/-- C7 witness: with a decision in flight the callback suspends. -/
theorem C7_witness :
    sslCertCallback { baseState with certCbSet := true, certCbRunning := true }
      false =
    ({ baseState with certCbSet := true, certCbRunning := true }, -1, false) :=
  C7_cert_cb_no_reentry.1 _ false rfl rfl rfl

/-- C9: a plaintext write requested after the engine has been destroyed
(`ssl_ == nullptr`) fails immediately and synchronously with `UV_EPROTO` and
the error string "Write after DestroySSL"; the state changes in no other way
(in particular nothing is queued) and no event is emitted. -/
theorem C9_write_after_destroy (s : TLSState) (wid : Nat)
    (bufs : List (List Nat)) (w : SSLWriteOutcome) (cob : ClearOutBehavior)
    (t1 t2 : TransportResult) (h : s.sslAlive = false) :
    doWrite s wid bufs w cob t1 t2 =
      (UV_EPROTO, { s with error := "Write after DestroySSL" }, []) := by
  unfold doWrite
  simp [h]

/-- C9 witness: concrete destroyed connection. -/
theorem C9_witness :
    doWrite { baseState with sslAlive := false } 0 [[1, 2]] idleWrite
      idleClearOut okTransport okTransport =
    (UV_EPROTO,
      { baseState with sslAlive := false, error := "Write after DestroySSL" },
      []) :=
  C9_write_after_destroy _ 0 [[1, 2]] idleWrite idleClearOut okTransport
    okTransport rfl

/-- Characterisation of `selectNextProto`: a returned protocol is the first
entry of the first (server-stored) list that also occurs in the second
(client-advertised) list, and `none` means the two lists have no common
entry. -/
theorem selectNextProto_first (server client : List (List Nat)) :
    (∀ p, selectNextProto server client = some p →
      p ∈ client ∧ ∃ pre suf, server = pre ++ p :: suf ∧ ∀ q ∈ pre, q ∉ client) ∧
    (selectNextProto server client = none → ∀ p ∈ server, p ∉ client) := by
  induction server with
  | nil => simp [selectNextProto]
  | cons c cs ih =>
    by_cases hc : c ∈ client
    · constructor
      · intro p hp
        have hp' : p = c := by
          simp [selectNextProto, List.find?_cons, hc] at hp
          exact hp.symm
        subst hp'
        exact ⟨hc, [], cs, rfl, by simp⟩
      · intro hn
        simp [selectNextProto, List.find?_cons, hc] at hn
    · constructor
      · intro p hp
        have hp' : selectNextProto cs client = some p := by
          simpa [selectNextProto, List.find?_cons, hc] using hp
        obtain ⟨hmem, pre, suf, heq, hpre⟩ := ih.1 p hp'
        refine ⟨hmem, c :: pre, suf, by simp [heq], ?_⟩
        intro q hq
        rcases List.mem_cons.mp hq with hq | hq
        · subst hq; exact hc
        · exact hpre q hq
      · intro hn p hp
        have hn' : selectNextProto cs client = none := by
          simpa [selectNextProto, List.find?_cons, hc] using hn
        rcases List.mem_cons.mp hp with hp | hp
        · subst hp; exact hc
        · exact ih.2 hn' p hp

/-- C3 counterexample: with server list `[[0], [1]]` and client list
`[[1], [0]]` the code (which hands the server list to
`SSL_select_next_proto` as the first, preference-giving vector) selects
`[0]`, while the first common protocol in the CLIENT preference order is
`[1]`.  So selection does not follow the client preference order. -/
theorem C3_counterexample :
    (selectALPNCallback [[0], [1]] [[1], [0]]).2 = some [0] ∧
    specALPNClientOrder [[0], [1]] [[1], [0]] = some [1] ∧
    (selectALPNCallback [[0], [1]] [[1], [0]]).2 ≠
      specALPNClientOrder [[0], [1]] [[1], [0]] := by
  decide

/-- C3 (amended): on the server side, ALPN selection returns the first common
protocol name in the SERVER preference order intersected against the
client-advertised list (with `SSL_TLSEXT_ERR_OK`); when there is no overlap it
returns `SSL_TLSEXT_ERR_NOACK` ("no protocol chosen"), which is not the fatal
alert code, and the handshake continues. -/
theorem C3_alpn_selection (server client : List (List Nat)) :
    (∀ p, (selectALPNCallback server client).2 = some p →
      (selectALPNCallback server client).1 = SSL_TLSEXT_ERR_OK ∧
      p ∈ client ∧
      ∃ pre suf, server = pre ++ p :: suf ∧ ∀ q ∈ pre, q ∉ client) ∧
    ((selectALPNCallback server client).2 = none →
      (selectALPNCallback server client).1 = SSL_TLSEXT_ERR_NOACK ∧
      SSL_TLSEXT_ERR_NOACK ≠ SSL_TLSEXT_ERR_ALERT_FATAL ∧
      ∀ p ∈ server, p ∉ client) := by
  unfold selectALPNCallback
  cases h : selectNextProto server client with
  | some q =>
    constructor
    · intro p hp
      simp at hp
      subst hp
      exact ⟨rfl, (selectNextProto_first server client).1 q h⟩
    · intro hp
      simp at hp
  | none =>
    constructor
    · intro p hp
      simp at hp
    · intro _
      exact ⟨rfl, by decide, (selectNextProto_first server client).2 h⟩

/-- C3 witness: server prefers `[1]` but only `[2]` is common; it is chosen. -/
theorem C3_witness :
    (selectALPNCallback [[1], [2]] [[2]]).1 = SSL_TLSEXT_ERR_OK ∧
    [2] ∈ [[2]] ∧
    ∃ pre suf, [[1], [2]] = pre ++ [2] :: suf ∧ ∀ q ∈ pre, q ∉ [[2]] :=
  (C3_alpn_selection [[1], [2]] [[2]]).1 [2] (by decide)

/-- A connection with a suspended certificate decision and an in-flight
write, used to examine `DestroySSL`. -/
def certPendingState : TLSState :=
  { baseState with certCbSet := true, certCbRunning := true, currentWrite := some 0 }

/-- C4 counterexample: destroying a connection while a certificate decision is
in flight cancels the in-flight write (`UV_ECANCELED`) but does NOT resolve
the suspended certificate-selection continuation: `cert_cb_` and
`cert_cb_running_` are left untouched by `DestroySSL`, and the only emitted
completion is the cancelled write. -/
theorem C4_counterexample :
    ((destroySSL certPendingState).1).certCbSet = true ∧
    ((destroySSL certPendingState).1).certCbRunning = true ∧
    (destroySSL certPendingState).2 =
      [Event.writeDone 0 UV_ECANCELED "Canceled because of SSL destruction"] := by
  decide

/-- C4 (amended): destroying a Connection synchronously fails any in-flight
write with `UV_ECANCELED`, releases the engine handle, and is idempotent (a
second destroy changes nothing and completes nothing); the suspended
certificate-selection continuation is NOT resolved by `DestroySSL` — its
fields are left exactly as they were. -/
theorem C4_destroy_cancels_write (s : TLSState) (wid : Nat)
    (h : s.currentWrite = some wid) :
    (destroySSL s).2 =
      [Event.writeDone wid UV_ECANCELED "Canceled because of SSL destruction"] ∧
    ((destroySSL s).1).currentWrite = none ∧
    ((destroySSL s).1).sslAlive = false ∧
    ((destroySSL s).1).certCbSet = s.certCbSet ∧
    ((destroySSL s).1).certCbRunning = s.certCbRunning ∧
    destroySSL (destroySSL s).1 = ((destroySSL s).1, []) := by
  unfold destroySSL invokeQueued
  by_cases hA : s.sslAlive = true <;> simp [h, hA]

/-- C4 witness: concrete destroy with an in-flight write. -/
theorem C4_witness :
    (destroySSL certPendingState).2 =
      [Event.writeDone 0 UV_ECANCELED "Canceled because of SSL destruction"] ∧
    ((destroySSL certPendingState).1).currentWrite = none ∧
    ((destroySSL certPendingState).1).sslAlive = false ∧
    ((destroySSL certPendingState).1).certCbSet = certPendingState.certCbSet ∧
    ((destroySSL certPendingState).1).certCbRunning =
      certPendingState.certCbRunning ∧
    destroySSL (destroySSL certPendingState).1 =
      ((destroySSL certPendingState).1, []) :=
  C4_destroy_cancels_write certPendingState 0 rfl

/-- C8: when the engine hands back a newly negotiated session,
`awaiting_new_session_` is set for server connections only (clients never set
it); while the flag is set, `EncOut` is a complete no-op; and `NewSessionDone`
clears the flag and resumes the cycle via `NewSessionDoneCb`. -/
theorem C8_awaiting_new_session :
    (∀ s n, s.isServer = false →
      ((newSessionCallback s n).1).awaitingNewSession = s.awaitingNewSession) ∧
    (∀ s n, s.isServer = true → s.sessionCallbacks = true →
      n ≤ kMaxSessionSize →
      ((newSessionCallback s n).1).awaitingNewSession = true) ∧
    (∀ s t, s.awaitingNewSession = true → encOut s t = (s, [])) ∧
    (∀ s w cob t1 t2, newSessionDone s w cob t1 t2 =
      cycle { s with awaitingNewSession := false } w cob t1 t2) := by
  refine ⟨?_, ?_, ?_, ?_⟩
  · intro s n h
    unfold newSessionCallback
    repeat' split <;> simp_all
  · intro s n h1 h2 h3
    unfold newSessionCallback
    have : ¬ kMaxSessionSize < n := by omega
    simp [h1, h2, this]
  · intro s t h
    unfold encOut
    by_cases h1 : s.helloEnded = false
    · simp [h1]
    · simp [h1, h]
  · intro s w cob t1 t2
    rfl

/-- C8 witness: a server with session callbacks and a small session sets the
flag. -/
theorem C8_witness :
    ((newSessionCallback baseState 100).1).awaitingNewSession = true :=
  C8_awaiting_new_session.2.1 baseState 100 rfl rfl (by decide)

theorem encOut_pending (s : TLSState) (t : TransportResult) :
    ((encOut s t).1).pendingCleartextInput = s.pendingCleartextInput :=
  (encOut_fields s t).1

theorem encOut_encIn (s : TLSState) (t : TransportResult) :
    ((encOut s t).1).encIn = s.encIn :=
  (encOut_fields s t).2.1

theorem encOut_eof (s : TLSState) (t : TransportResult) :
    ((encOut s t).1).eof = s.eof :=
  (encOut_fields s t).2.2.1

theorem clearOut_pending (s : TLSState) (b : ClearOutBehavior)
    (t : TransportResult) :
    ((clearOut s b t).1).pendingCleartextInput = s.pendingCleartextInput := by
  unfold clearOut
  split
  · rfl
  split
  · rfl
  split
  · rfl
  dsimp only
  split_ifs <;> (first | rfl | exact encOut_pending _ _)

/-- C10: plaintext payloads pass to the engine atomically.  A `ClearIn` retry
either hands the whole retained payload to the engine or retains exactly the
same whole payload again, and a `DoWrite` either passes the whole submitted
payload to the engine (leaving nothing pending) or retains exactly the full
concatenation of the submitted buffers for retry — never a partial suffix. -/
theorem C10_atomic_plaintext :
    (∀ s w, ((clearIn s w).1).pendingCleartextInput = [] ∨
      ((clearIn s w).1).pendingCleartextInput = s.pendingCleartextInput) ∧
    (∀ s wid bufs w cob t1 t2, s.pendingCleartextInput = [] →
      (((doWrite s wid bufs w cob t1 t2).2.1).pendingCleartextInput = [] ∨
        ((doWrite s wid bufs w cob t1 t2).2.1).pendingCleartextInput =
          bufs.flatten)) := by
  constructor
  · intro s w
    unfold clearIn
    split
    · simp
    split
    · simp
    split
    · simp
    dsimp only
    split
    · simp
    · split_ifs
      · exact Or.inl ((invokeQueued_fields _ _ _).1.trans rfl)
      · simp
  · intro s wid bufs w cob t1 t2 hpend
    unfold doWrite
    split
    · simp [hpend]
    · dsimp only
      split
      · split_ifs <;> simp [clearOut_pending, encOut_pending, hpend]
      · try dsimp only
        split
        · simp [encOut_pending, hpend]
        · split_ifs
          · simp [hpend]
          · simp [encOut_pending]

/-- C10 witness: a two-buffer write that the engine rejects with want-write is
retained whole. -/
theorem C10_witness :
    ((doWrite baseState 0 [[1, 2], [3]]
        (SSLWriteOutcome.fail SSLError.wantWrite) idleClearOut okTransport
        okTransport).2.1).pendingCleartextInput = [] ∨
    ((doWrite baseState 0 [[1, 2], [3]]
        (SSLWriteOutcome.fail SSLError.wantWrite) idleClearOut okTransport
        okTransport).2.1).pendingCleartextInput = [[1, 2], [3]].flatten :=
  C10_atomic_plaintext.2 baseState 0 [[1, 2], [3]]
    (SSLWriteOutcome.fail SSLError.wantWrite) idleClearOut okTransport
    okTransport rfl

theorem countP_eof_map_emitData (l : List (List Nat)) :
    (l.map Event.emitData).countP isEOFEvent = 0 := by
  induction l with
  | nil => rfl
  | cons c cs ih => simp [List.countP_cons, isEOFEvent, ih]

theorem countP_eof_comp_emitData (l : List (List Nat)) :
    l.countP (isEOFEvent ∘ Event.emitData) = 0 := by
  induction l with
  | nil => rfl
  | cons c cs ih => simp [List.countP_cons, isEOFEvent, Function.comp, ih]

theorem countP_eof_invokeQueued (s : TLSState) (st : Int) (m : String) :
    ((invokeQueued s st m).2).countP isEOFEvent = 0 := by
  unfold invokeQueued
  split
  · rfl
  · split <;> simp [List.countP_cons, isEOFEvent]

theorem countP_eof_encOut (s : TLSState) (t : TransportResult) :
    ((encOut s t).2).countP isEOFEvent = 0 := by
  unfold encOut
  split
  · rfl
  split
  · rfl
  split
  · rfl
  dsimp only
  split_ifs <;>
    simp [countP_eof_invokeQueued, List.countP_cons, isEOFEvent]

/-- C6: EOF is delivered to the consumer at most once per connection.  Once
`eof_` is set, `ClearOut` is a complete no-op (no plaintext reads, no EOF,
no state change) and a transport EOF is swallowed; a single `ClearOut`
delivers at most one EOF, and delivering it requires `eof_` to have been unset
and sets it; a transport-EOF `OnStreamRead` also delivers at most one EOF even
when `ClearOut` observes the shutdown alert in the same call. -/
theorem C6_eof_at_most_once :
    (∀ s b t, s.eof = true → clearOut s b t = (s, [])) ∧
    (∀ s b t, ((clearOut s b t).2).countP isEOFEvent ≤ 1) ∧
    (∀ s b t, 1 ≤ ((clearOut s b t).2).countP isEOFEvent →
      s.eof = false ∧ ((clearOut s b t).1).eof = true) ∧
    (∀ s w cob t1 t2, s.eof = true →
      onStreamRead s UV_EOF [] w cob t1 t2 = (s, [])) ∧
    (∀ s w cob t1 t2,
      ((onStreamRead s UV_EOF [] w cob t1 t2).2).countP isEOFEvent ≤ 1) := by
  have h1 : ∀ s b t, s.eof = true → clearOut s b t = (s, []) := by
    intro s b t h
    unfold clearOut
    by_cases hH : s.helloEnded = false <;> simp [hH, h]
  have h23 : ∀ s b t, ((clearOut s b t).2).countP isEOFEvent ≤ 1 ∧
      (1 ≤ ((clearOut s b t).2).countP isEOFEvent →
        s.eof = false ∧ ((clearOut s b t).1).eof = true) := by
    intro s b t
    unfold clearOut
    split
    · simp
    split
    · simp
    split
    · simp
    dsimp only
    split_ifs <;>
      simp_all [List.countP_append, List.countP_cons, countP_eof_map_emitData,
        countP_eof_comp_emitData, countP_eof_encOut, isEOFEvent, encOut_eof]
  have h4 : ∀ s w cob t1 t2, s.eof = true →
      onStreamRead s UV_EOF [] w cob t1 t2 = (s, []) := by
    intro s w cob t1 t2 h
    unfold onStreamRead
    rw [if_pos (by decide : UV_EOF < 0)]
    rw [h1 s cob t1 h]
    simp [h]
  refine ⟨h1, fun s b t => (h23 s b t).1, fun s b t => (h23 s b t).2, h4, ?_⟩
  intro s w cob t1 t2
  unfold onStreamRead
  rw [if_pos (by decide : UV_EOF < 0)]
  rw [if_pos (rfl : UV_EOF = UV_EOF)]
  cases hPost : ((clearOut s cob t1).1).eof
  · have hz : ((clearOut s cob t1).2).countP isEOFEvent = 0 := by
      by_contra hc
      have : 1 ≤ ((clearOut s cob t1).2).countP isEOFEvent := by omega
      have := ((h23 s cob t1).2 this).2
      rw [hPost] at this
      exact Bool.false_ne_true this
    simp [hPost, List.countP_append, List.countP_cons, hz, isEOFEvent]
  · simp [hPost, (h23 s cob t1).1]

/-- C6 witness: with `eof_` already set, `ClearOut` does nothing even if the
engine still reports the shutdown condition. -/
theorem C6_witness :
    clearOut { baseState with eof := true }
      { idleClearOut with receivedShutdown := true, finalErr := SSLError.zeroReturn }
      okTransport = ({ baseState with eof := true }, []) :=
  C6_eof_at_most_once.1 _ _ _ rfl

theorem countP_transport_invokeQueued (s : TLSState) (st : Int) (m : String) :
    ((invokeQueued s st m).2).countP isTransportWriteEvent = 0 := by
  unfold invokeQueued
  split
  · rfl
  · split <;> simp [List.countP_cons, isTransportWriteEvent]

theorem invokeQueued_writeSize (s : TLSState) (st : Int) (m : String) :
    ((invokeQueued s st m).1).writeSize = s.writeSize :=
  (invokeQueued_fields s st m).2.2.2.2.2.1

/-- If a NodeBIO with only non-empty chunks has pending bytes, then so does
the prefix of chunks peeked by `PeekMultiple`. -/
theorem bioPending_take_pos (chunks : List (List Nat))
    (hne : ∀ c ∈ chunks, c ≠ []) (hp : bioPending chunks ≠ 0) :
    bioPending (chunks.take kSimultaneousBufferCount) ≠ 0 := by
  cases chunks with
  | nil => simp [bioPending] at hp
  | cons c cs =>
    have hc : c ≠ [] := hne c (List.mem_cons_self c cs)
    have hcpos : 0 < c.length := List.length_pos.mpr hc
    have ht : (c :: cs).take kSimultaneousBufferCount = c :: cs.take 9 := rfl
    rw [ht]
    simp only [bioPending, List.flatten_cons, List.length_append]
    omega

/-- C2: at most one transport write is in flight per connection.  `EncOut`
issues no transport write (and changes nothing at all) while `write_size_` is
non-zero; any `EncOut` that does issue a transport write starts from
`write_size_ = 0` and leaves it non-zero; `ClearIn`, `ClearOut` and `DoWrite`
never reset a non-zero `write_size_`; `OnStreamAfterWrite` with an error
status leaves it untouched, and only the success path of `OnStreamAfterWrite`
resets it to zero before re-running `EncOut` (so a queued write proceeds only
after the previous one completed). -/
theorem C2_single_inflight_write :
    (∀ s t, s.writeSize ≠ 0 → encOut s t = (s, [])) ∧
    (∀ s t, 1 ≤ ((encOut s t).2).countP isTransportWriteEvent →
      s.writeSize = 0) ∧
    (∀ s t, (∀ c ∈ s.encOutChunks, c ≠ []) →
      1 ≤ ((encOut s t).2).countP isTransportWriteEvent →
      ((encOut s t).1).writeSize ≠ 0) ∧
    (∀ s w, ((clearIn s w).1).writeSize = s.writeSize) ∧
    (∀ s b t, s.writeSize ≠ 0 →
      ((clearOut s b t).1).writeSize = s.writeSize) ∧
    (∀ s wid bufs w cob t1 t2, s.writeSize ≠ 0 →
      ((doWrite s wid bufs w cob t1 t2).2.1).writeSize = s.writeSize) ∧
    (∀ s st w t, s.currentEmptyWrite = none → st ≠ 0 →
      ((onStreamAfterWrite s st w t).1).writeSize = s.writeSize) ∧
    (∀ s w t, s.currentEmptyWrite = none → s.sslAlive = true →
      ∃ s2, s2.writeSize = 0 ∧
        (onStreamAfterWrite s 0 w t).1 = (encOut s2 t).1) := by
  have hA : ∀ s t, s.writeSize ≠ 0 → encOut s t = (s, []) := by
    intro s t h
    unfold encOut
    by_cases hH : s.helloEnded = false
    · simp [hH]
    · simp [hH, h]
  have hA2 : ∀ s t, s.writeSize ≠ 0 →
      ((encOut s t).1).writeSize = s.writeSize := by
    intro s t h
    rw [hA s t h]
  have hB : ∀ s t, 1 ≤ ((encOut s t).2).countP isTransportWriteEvent →
      s.writeSize = 0 := by
    intro s t hc
    by_contra hnz
    rw [hA s t hnz] at hc
    simp at hc
  have hD : ∀ s w, ((clearIn s w).1).writeSize = s.writeSize := by
    intro s w
    unfold clearIn
    split
    · rfl
    split
    · rfl
    split
    · rfl
    dsimp only
    split
    · rfl
    · split_ifs
      · exact invokeQueued_writeSize _ _ _
      · rfl
  have hE : ∀ s b t, s.writeSize ≠ 0 →
      ((clearOut s b t).1).writeSize = s.writeSize := by
    intro s b t h
    unfold clearOut
    split
    · rfl
    split
    · rfl
    split
    · rfl
    dsimp only
    split_ifs <;> (first | rfl | exact hA2 _ t (by exact h))
  have hC : ∀ s t, (∀ c ∈ s.encOutChunks, c ≠ []) →
      1 ≤ ((encOut s t).2).countP isTransportWriteEvent →
      ((encOut s t).1).writeSize ≠ 0 := by
    intro s t hne hc
    unfold encOut at hc ⊢
    by_cases h1 : s.helloEnded = false
    · simp [h1] at hc
    · by_cases h2 : s.writeSize ≠ 0
      · simp [h1, h2] at hc
      · by_cases h3 : s.awaitingNewSession = true
        · simp [h1, h2, h3] at hc
        · rw [if_neg h1, if_neg h2, if_neg h3] at hc ⊢
          dsimp only at hc ⊢
          split_ifs at hc ⊢ <;>
            first
              | exact bioPending_take_pos _ hne (by assumption)
              | (rw [invokeQueued_writeSize]
                 exact bioPending_take_pos _ hne (by assumption))
              | simp [List.countP_cons, isTransportWriteEvent,
                  countP_transport_invokeQueued] at hc
  have hF : ∀ s wid bufs w cob t1 t2, s.writeSize ≠ 0 →
      ((doWrite s wid bufs w cob t1 t2).2.1).writeSize = s.writeSize := by
    intro s wid bufs w cob t1 t2 h
    have hx : ((clearOut s cob t1).1).writeSize ≠ 0 := by
      rw [hE s cob t1 h]
      exact h
    unfold doWrite
    split
    · rfl
    · dsimp only
      split
      · split_ifs
        · exact hE s cob t1 h
        · exact hE s cob t1 h
        · exact (hA2 _ t1 (by exact hx)).trans (hE s cob t1 h)
      · try dsimp only
        split
        · exact hA2 _ t1 (by exact h)
        · split_ifs
          · rfl
          · exact hA2 _ t1 (by exact h)
  have hG : ∀ s st w t, s.currentEmptyWrite = none → st ≠ 0 →
      ((onStreamAfterWrite s st w t).1).writeSize = s.writeSize := by
    intro s st w t hEW hst
    unfold onStreamAfterWrite
    rw [hEW]
    dsimp only
    by_cases hAl : s.sslAlive = false
    · rw [if_pos hAl, if_pos (by decide : UV_ECANCELED ≠ 0)]
      split
      · rfl
      · exact invokeQueued_writeSize _ _ _
    · rw [if_neg hAl, if_pos hst]
      split
      · rfl
      · exact invokeQueued_writeSize _ _ _
  have hH8 : ∀ s w t, s.currentEmptyWrite = none → s.sslAlive = true →
      ∃ s2, s2.writeSize = 0 ∧
        (onStreamAfterWrite s 0 w t).1 = (encOut s2 t).1 := by
    intro s w t hEW hAl
    refine ⟨{ (clearIn { s with
        encOutChunks := bioConsume s.encOutChunks s.writeSize } w).1 with
        writeSize := 0 }, rfl, ?_⟩
    unfold onStreamAfterWrite
    rw [hEW]
    dsimp only
    rw [if_neg (by simp [hAl])]
  exact ⟨hA, hB, hC, hD, hE, hF, hG, hH8⟩

/-- C2 witness: with a write in flight (`write_size_ = 7`), `EncOut` does
nothing at all. -/
theorem C2_witness :
    encOut { baseState with writeSize := 7 } okTransport =
      ({ baseState with writeSize := 7 }, []) :=
  C2_single_inflight_write.1 _ okTransport (by decide)

theorem clearIn_fields (s : TLSState) (w : SSLWriteOutcome) :
    ((clearIn s w).1).encIn = s.encIn ∧
    ((clearIn s w).1).eof = s.eof ∧
    ((clearIn s w).1).helloEnded = s.helloEnded ∧
    ((clearIn s w).1).sslAlive = s.sslAlive := by
  unfold clearIn
  split
  · exact ⟨rfl, rfl, rfl, rfl⟩
  split
  · exact ⟨rfl, rfl, rfl, rfl⟩
  split
  · exact ⟨rfl, rfl, rfl, rfl⟩
  dsimp only
  split
  · exact ⟨rfl, rfl, rfl, rfl⟩
  · split_ifs
    · exact ⟨(invokeQueued_fields _ _ _).2.1, (invokeQueued_fields _ _ _).2.2.1,
        (invokeQueued_fields _ _ _).2.2.2.1,
        (invokeQueued_fields _ _ _).2.2.2.2.1⟩
    · exact ⟨rfl, rfl, rfl, rfl⟩

/-- Once the ClientHello gate is open, one `ClearOut` lets the engine consume
exactly a prefix of the buffered ciphertext: `enc_in_` is advanced by
`b.consumed` bytes from the front, in FIFO order. -/
theorem clearOut_encIn (s : TLSState) (b : ClearOutBehavior)
    (t : TransportResult) (h1 : s.helloEnded = true) (h2 : s.eof = false)
    (h3 : s.sslAlive = true) :
    ((clearOut s b t).1).encIn = s.encIn.drop b.consumed := by
  unfold clearOut
  rw [if_neg (by simp [h1]), if_neg (by simp [h2]), if_neg (by simp [h3])]
  dsimp only
  split_ifs <;> (first | rfl | exact encOut_encIn _ _)

/-- While the ClientHello sniffer is active, `OnStreamRead` commits the bytes
into `enc_in_`, hands them to the parser (which only peeks), and returns
without driving the engine. -/
theorem onStreamRead_sniffing (s : TLSState) (data : List Nat)
    (w : SSLWriteOutcome) (cob : ClearOutBehavior) (t1 t2 : TransportResult)
    (h : s.helloEnded = false) :
    onStreamRead s (data.length : Int) data w cob t1 t2 =
      ({ s with encIn := s.encIn ++ data }, [Event.helloParse]) := by
  unfold onStreamRead
  rw [if_neg (by omega : ¬((data.length : Int) < 0))]
  dsimp only
  rw [if_pos h]

theorem deliverAll_go (chunksIn : List (List Nat)) :
    ∀ (s : TLSState) (evs : List Event), s.helloEnded = false →
      chunksIn.foldl deliverStep (s, evs) =
      ({ s with encIn := s.encIn ++ chunksIn.flatten },
        evs ++ chunksIn.map fun _ => Event.helloParse) := by
  induction chunksIn with
  | nil =>
    intro s evs h
    simp
  | cons c cs ih =>
    intro s evs h
    have hstep : deliverStep (s, evs) c =
        ({ s with encIn := s.encIn ++ c }, evs ++ [Event.helloParse]) := by
      unfold deliverStep
      rw [onStreamRead_sniffing _ _ _ _ _ _ h]
    rw [List.foldl_cons, hstep,
      ih { s with encIn := s.encIn ++ c } (evs ++ [Event.helloParse])
        (by exact h)]
    simp [List.append_assoc]

/-- C1 counterexample: while the ClientHello sniffer is active
(`hello_parser_` not ended) and `enc_in_` is empty, delivering one byte makes
`OnStreamRead` commit it into `enc_in_` — the NodeBIO that `InitSSL` installed
as the engine read BIO — before consulting the parser.  So bytes ARE committed
into the session engine incoming buffer while the sniffer is active. -/
theorem C1_counterexample :
    ({ baseState with helloEnded := false } : TLSState).encIn = [] ∧
    ((onStreamRead { baseState with helloEnded := false } 1 [7] idleWrite
        idleClearOut okTransport okTransport).1).encIn = [7] := by
  decide

/-- C1 (amended): while the ClientHello sniffer is active, incoming bytes ARE
committed into the engine incoming BIO, but they are only shown to the sniffer
(which peeks without consuming) and the engine is never driven: `EncOut`,
`ClearIn` and `ClearOut` are complete no-ops, and `OnStreamRead` returns right
after feeding the parser, without cycling the engine.  Across any sequence of
deliveries the buffer accumulates exactly the delivered bytes in their original
order; once the sniffer signals completion (`endParser` → `Cycle`), the engine
consumes those buffered bytes — and only those — from the front, in original
order. -/
theorem C1_sniffer_gate :
    (∀ s t, s.helloEnded = false → encOut s t = (s, [])) ∧
    (∀ s w, s.helloEnded = false → clearIn s w = (s, [])) ∧
    (∀ s b t, s.helloEnded = false → clearOut s b t = (s, [])) ∧
    (∀ s data w cob t1 t2, s.helloEnded = false →
      onStreamRead s (data.length : Int) data w cob t1 t2 =
        ({ s with encIn := s.encIn ++ data }, [Event.helloParse])) ∧
    (∀ s chunksIn, s.helloEnded = false →
      deliverAll s chunksIn =
        ({ s with encIn := s.encIn ++ chunksIn.flatten },
          chunksIn.map fun _ => Event.helloParse)) ∧
    (∀ s w cob t1 t2, s.eof = false → s.sslAlive = true →
      ((endParser s w cob t1 t2).1).encIn = s.encIn.drop cob.consumed) := by
  have g1 : ∀ s t, s.helloEnded = false → encOut s t = (s, []) := by
    intro s t h
    unfold encOut
    simp [h]
  have g2 : ∀ s w, s.helloEnded = false → clearIn s w = (s, []) := by
    intro s w h
    unfold clearIn
    simp [h]
  have g3 : ∀ s b t, s.helloEnded = false → clearOut s b t = (s, []) := by
    intro s b t h
    unfold clearOut
    simp [h]
  refine ⟨g1, g2, g3, fun s data w cob t1 t2 h =>
    onStreamRead_sniffing s data w cob t1 t2 h, ?_, ?_⟩
  · intro s chunksIn h
    unfold deliverAll
    rw [deliverAll_go chunksIn s [] h]
    simp
  · intro s w cob t1 t2 h2 h3
    have hf := clearIn_fields { s with helloEnded := true } w
    unfold endParser cycle
    dsimp only
    rw [encOut_encIn]
    rw [clearOut_encIn _ cob t1 (hf.2.2.1.trans rfl) (hf.2.1.trans h2)
      (hf.2.2.2.trans h3)]
    rw [hf.1]

/-- C1 witness: two chunks delivered while sniffing end up appended, in
order, in `enc_in_`, with only parser feedings as events. -/
theorem C1_witness :
    deliverAll { baseState with helloEnded := false } [[1], [2, 3]] =
      ({ baseState with helloEnded := false, encIn := [1, 2, 3] },
        [Event.helloParse, Event.helloParse]) :=
  C1_sniffer_gate.2.2.2.2.1 { baseState with helloEnded := false }
    [[1], [2, 3]] rfl

end NodeTLS
